import Mathlib

/-!
Shallow embedding of the WARRANTY-POC workflow core in Lean 4, together with
theorems checking the natural-language specification against it.

The embedding covers:
* the case-context data model (`src/models/case_context.py`),
* the rule-based plan generator (`src/mcp_servers/planner.py`),
* the plan validator and plan executor of the orchestrator
  (`src/orchestrator/warranty_orchestrator.py`), and
* the idempotent action collaborators (`src/mcp_servers/actions.py`).

Python dictionaries are embedded as structures whose `Option` fields model
possibly-absent keys; Python truthiness on strings and optional booleans is
made explicit (`truthyS`, `truthyOB`); nondeterministic inputs of the source
(freshly generated identifiers, timestamps) are passed as explicit oracle
parameters; exceptions are modelled with `Except`; the external collaborator
calls made by the executor are abstracted as an oracle function describing
the collaborator behaviour (return value, structured error, or raised
exception), since the spec designates them as out-of-scope collaborators.
The plan generator receives the context dictionary and hands it back
unchanged (the pair component), mirroring the fact that the source never
writes into the dict it is given.
-/

/-- Python truthiness of an optional string: `None` and the empty string are
falsy, every other string is truthy. -/
def truthyS : Option String → Bool
  | none => false
  | some s => !(s == "")

/-- Python truthiness of an optional boolean: only `True` is truthy
(`None` and `False` are falsy). -/
def truthyOB : Option Bool → Bool
  | some true => true
  | _ => false

/-- Embedding of the Python expression `a or b` on optional strings:
the first operand if it is truthy, the second otherwise. -/
def pyOrS (a b : Option String) : Option String :=
  if truthyS a then a else b

/-- Embedding of the Python substring test `needle in hay`. -/
def substrOf (needle hay : String) : Bool :=
  (List.range (hay.data.length + 1)).any (fun i => needle.data.isPrefixOf (hay.data.drop i))

/-- Lower-casing of a single ASCII character; embedding of `str.lower()`
restricted to the ASCII fragment used by the keyword lists of the planner. -/
def lowerChar (c : Char) : Char :=
  if c = 'A' then 'a' else if c = 'B' then 'b' else if c = 'C' then 'c' else if c = 'D' then 'd'
  else if c = 'E' then 'e' else if c = 'F' then 'f' else if c = 'G' then 'g' else if c = 'H' then 'h'
  else if c = 'I' then 'i' else if c = 'J' then 'j' else if c = 'K' then 'k' else if c = 'L' then 'l'
  else if c = 'M' then 'm' else if c = 'N' then 'n' else if c = 'O' then 'o' else if c = 'P' then 'p'
  else if c = 'Q' then 'q' else if c = 'R' then 'r' else if c = 'S' then 's' else if c = 'T' then 't'
  else if c = 'U' then 'u' else if c = 'V' then 'v' else if c = 'W' then 'w' else if c = 'X' then 'x'
  else if c = 'Y' then 'y' else if c = 'Z' then 'z' else c

/-- Embedding of the Python `user_message.lower()` call. -/
def lowerStr (s : String) : String := ⟨s.data.map lowerChar⟩

/-- Embedding of the f-string formatting `{x:.2f}` used for charge amounts
(amounts are modelled as rationals). -/
def fmt2 (q : ℚ) : String :=
  let cents : ℤ := round (q * 100)
  let sign := if cents < 0 then "-" else ""
  let m := cents.natAbs
  let frac := m % 100
  sign ++ toString (m / 100) ++ "." ++ (if frac < 10 then "0" ++ toString frac else toString frac)

/-- Rendering of an optional string inside an f-string: Python prints `None`
for an absent value and the bare string otherwise. -/
def optStr : Option String → String
  | none => "None"
  | some s => s

/-- Rendering of a list of strings inside an f-string, as Python would
print it (repr of a list of single-quoted strings). -/
def pyReprList (xs : List String) : String :=
  "[" ++ String.intercalate ", " (xs.map (fun s => "\x27" ++ s ++ "\x27")) ++ "]"

/-- Location model from `src/models/case_context.py` (keys of the location
dictionary read by the planner). -/
structure Location where
  zip : Option String := none
  city : Option String := none
  state : Option String := none
deriving DecidableEq, Repr

/-- Source method `Location.is_complete`: a location is complete iff the zip
is present or both city and state are present (Python truthiness). -/
def Location.is_complete (l : Location) : Bool :=
  truthyS l.zip || (truthyS l.city && truthyS l.state)

/-- Warranty-status record. The `active` field is `Option Bool` because the
planner reads it with `dict.get("active")`, which yields `None` when the
key is absent. -/
structure WarrantyStatus where
  active : Option Bool := none
  coverage_types : List String := []
  expiration_date : Option String := none
deriving DecidableEq, Repr

/-- Case-context record: the union of the keys produced by
`CaseContext.to_dict` and the keys the planner and executor read.
Absent keys are `none`. -/
structure CaseContext where
  case_id : Option String := none
  logged_in : Bool := false
  has_registered_products : Bool := false
  customer_id : Option String := none
  product_id : Option String := none
  serial_number : Option String := none
  product_type : Option String := none
  product_name : Option String := none
  purchase_date : Option String := none
  location : Location := {}
  warranty_status : WarrantyStatus := {}
  customer_decision : Option String := none
  potential_charges : Option ℚ := none
  territory_checked : Option Bool := none
  territory_serviceable : Option Bool := none
  issue_description : Option String := none
deriving DecidableEq, Repr

/-- Source method `CaseContext.get_missing_fields` from
`src/models/case_context.py`. -/
def CaseContext.get_missing_fields (c : CaseContext) : List String :=
  (if !truthyS c.product_id && !truthyS c.serial_number then ["product_id or serial_number"] else [])
    ++ (if !c.location.is_complete then ["location (zip code or city/state)"] else [])

/-- Values occurring in planner tool arguments, tagged by their origin in
the source (plain strings, numbers, optional strings, embedded location,
warranty-status and full-context records, and nested dictionaries). -/
inductive ArgVal where
  | s (v : String)
  | n (v : ℚ)
  | optS (v : Option String)
  | loc (v : Location)
  | ws (v : WarrantyStatus)
  | ctx (v : CaseContext)
  | dict (v : List (String × ArgVal))

/-- Step-type enumeration from the planner. -/
inductive StepType where
  | ASK_USER_FOR_INFO
  | CALL_TOOL
  | RETURN_ACTION
  | RESPOND_TO_USER
deriving DecidableEq, Repr

/-- String value of a step type (the `str`-enum value). -/
def StepType.toStr : StepType → String
  | .ASK_USER_FOR_INFO => "ASK_USER_FOR_INFO"
  | .CALL_TOOL => "CALL_TOOL"
  | .RETURN_ACTION => "RETURN_ACTION"
  | .RESPOND_TO_USER => "RESPOND_TO_USER"

/-- Action-type enumeration from the planner. -/
inductive ActionType where
  | PROMPT_LOGIN
  | PROMPT_PRODUCT_REGISTRATION
  | CASE_COMPLETE
  | ESCALATE
deriving DecidableEq, Repr

/-- String value of an action type (the `str`-enum value). -/
def ActionType.toStr : ActionType → String
  | .PROMPT_LOGIN => "PROMPT_LOGIN"
  | .PROMPT_PRODUCT_REGISTRATION => "PROMPT_PRODUCT_REGISTRATION"
  | .CASE_COMPLETE => "CASE_COMPLETE"
  | .ESCALATE => "ESCALATE"

/-- The `PlanStep` dataclass of the planner; fields that the constructor
call sites omit default to `none`, as in the source. -/
structure PlanStep where
  step_type : StepType
  description : String
  tool_name : Option String := none
  tool_args : Option (List (String × ArgVal)) := none
  action_type : Option ActionType := none
  required_fields : Option (List String) := none
  message : Option String := none

/-- The dictionary form of a plan step as consumed by the orchestrator
(`PlanStep.to_dict` output, with falsy fields removed). -/
structure OStep where
  step_type : String
  description : String := ""
  tool_name : Option String := none
  tool_args : Option (List (String × ArgVal)) := none
  action_type : Option String := none
  required_fields : Option (List String) := none
  message : Option String := none

/-- Source method `PlanStep.to_dict`: keeps only truthy optional fields
(`None`, empty strings, empty lists and empty dicts are dropped). -/
def PlanStep.to_dict (p : PlanStep) : OStep :=
  { step_type := p.step_type.toStr
    description := p.description
    tool_name := if truthyS p.tool_name then p.tool_name else none
    tool_args := match p.tool_args with
      | some l => if l.isEmpty then none else some l
      | none => none
    action_type := p.action_type.map ActionType.toStr
    required_fields := match p.required_fields with
      | some l => if l.isEmpty then none else some l
      | none => none
    message := if truthyS p.message then p.message else none }

/-- The planner response dictionary built by `_build_response`
(`status` is always `"ok"`; the `data` sub-dictionary is flattened). -/
structure PlanResponse where
  status : String
  plan : List OStep
  step_count : ℕ
  reasoning : String

/-- Source function `_build_response` of the planner. -/
def _build_response (steps : List PlanStep) (reasoning : String) : PlanResponse :=
  { status := "ok", plan := steps.map PlanStep.to_dict, step_count := steps.length, reasoning }

/-- Accept keywords of the HEAT confirmation classifier (source line 262). -/
def yes_words : List String :=
  ["yes", "proceed", "continue", "ok", "sure", "agree", "go ahead", "let\x27s do it"]

/-- Decline keywords of the HEAT confirmation classifier (source line 263). -/
def no_words : List String :=
  ["no", "cancel", "stop", "decline", "don\x27t", "dont", "expensive", "can\x27t afford"]

/-- The accept classification `is_yes` of `_generate_heat_plan`. -/
def is_yes_msg (user_lower : String) : Bool :=
  yes_words.any (fun w => substrOf w user_lower)

/-- The decline classification `is_no` of `_generate_heat_plan`. -/
def is_no_msg (user_lower : String) : Bool :=
  no_words.any (fun w => substrOf w user_lower)

/-- Source function `_continue_heat_proceed_flow` of the planner: territory
check (when not yet attempted), then service directory or PayPal link. -/
def _continue_heat_proceed_flow (steps : List PlanStep) (context : CaseContext)
    (location : Location) (product_id : Option String) (potential_charges : ℚ) :
    PlanResponse × CaseContext :=
  let territory_checked := context.territory_checked
  let territory_serviceable := context.territory_serviceable
  let steps := steps ++
    (if territory_checked == none then
      [{ step_type := .CALL_TOOL,
         description := "Check if location is in serviceable territory",
         tool_name := some "check_territory",
         tool_args := some [("location", .loc location)] }]
     else [])
  if truthyOB territory_checked && !truthyOB territory_serviceable then
    let steps := steps ++
      [{ step_type := .CALL_TOOL,
         description := "Get service directory for non-serviceable territory",
         tool_name := some "get_service_directory",
         tool_args := some [("product_type", .s "HEAT"), ("location", .loc location)] },
       { step_type := .RESPOND_TO_USER,
         description := "Inform customer about service options",
         message := some "Unfortunately, your location is outside our direct service territory. Here are authorized service providers in your area who can help:" }]
    (_build_response steps "HEAT path - Customer agreed, but not serviceable territory", context)
  else
    let steps := steps ++
      [{ step_type := .CALL_TOOL,
         description := "Generate PayPal payment link for service charges",
         tool_name := some "generate_paypal_link",
         tool_args := some
           [("amount", .n potential_charges),
            ("metadata", .dict
              [("case_id", .optS context.case_id),
               ("product_id", .optS product_id),
               ("description", .s "HEAT product service charge")])] },
       { step_type := .RESPOND_TO_USER,
         description := "Provide payment link and next steps",
         message := some ("Great! Please complete your payment of $" ++ fmt2 potential_charges ++ " using the link below. Once payment is confirmed, we\x27ll schedule your service appointment.") }]
    (_build_response steps "HEAT path - Customer agreed, payment link generated", context)

/-- Source function `_generate_heat_plan` of the planner: charge
calculation, then decline/accept classification of the user message. -/
def _generate_heat_plan (steps : List PlanStep) (context : CaseContext)
    (warranty_status : WarrantyStatus) (customer_decision : Option String)
    (potential_charges : Option ℚ) (user_message : String) :
    PlanResponse × CaseContext :=
  let location := context.location
  let product_id := context.product_id
  match potential_charges with
  | none =>
    let steps := steps ++
      [{ step_type := .CALL_TOOL,
         description := "Calculate potential service charges based on warranty coverage",
         tool_name := some "calculate_charges",
         tool_args := some
           [("product_id", .optS product_id),
            ("product_type", .s "HEAT"),
            ("warranty_status", .ws warranty_status),
            ("location", .loc location)] },
       { step_type := .ASK_USER_FOR_INFO,
         description := "Present charges and ask for confirmation - END TURN",
         required_fields := some ["proceed_confirmation"],
         message := some "Based on your warranty coverage, here are the potential service charges. Would you like to proceed with the service? Please reply Yes or No." }]
    (_build_response steps "HEAT path - Turn 1: Calculated charges, asking for confirmation, END TURN", context)
  | some charges =>
    let user_lower := lowerStr user_message
    let is_yes := is_yes_msg user_lower
    let is_no := is_no_msg user_lower
    if is_no || customer_decision == some "DECLINE" then
      let reason := if user_message.length > 5 then user_message else "Customer declined service"
      let steps := steps ++
        [{ step_type := .CALL_TOOL,
           description := "Log the reason for declining service",
           tool_name := some "log_decline_reason",
           tool_args := some
             [("reason", .s reason),
              ("context", .dict
                [("case_id", .optS context.case_id),
                 ("product_id", .optS product_id),
                 ("potential_charges", .n charges),
                 ("warranty_status", .ws warranty_status)])] },
         { step_type := .RESPOND_TO_USER,
           description := "Acknowledge decline and offer alternatives",
           message := some "I understand. I\x27ve noted your decision. If you change your mind or have any questions, please don\x27t hesitate to reach out. Is there anything else I can help you with?" }]
      (_build_response steps "HEAT path - Turn 2: Customer declined, reason logged", context)
    else if is_yes || customer_decision == some "PROCEED" then
      _continue_heat_proceed_flow steps context location product_id charges
    else
      let steps := steps ++
        [{ step_type := .ASK_USER_FOR_INFO,
           description := "Clarify user\x27s decision",
           required_fields := some ["proceed_confirmation"],
           message := some ("I want to make sure I understand. The service charge would be $" ++ fmt2 charges ++ ". Would you like to proceed? Please reply Yes or No.") }]
      (_build_response steps "HEAT path - Turn 2: Unclear response, asking for clarification", context)

/-- Source function `_generate_salt_plan` of the planner. -/
def _generate_salt_plan (steps : List PlanStep) (context : CaseContext)
    (warranty_status : WarrantyStatus) : PlanResponse × CaseContext :=
  let is_warranty_active := warranty_status.active.getD false
  let location := context.location
  if !is_warranty_active then
    let steps := steps ++
      [{ step_type := .CALL_TOOL,
         description := "Get service directory for non-warranty SALT product",
         tool_name := some "get_service_directory",
         tool_args := some [("product_type", .s "SALT"), ("location", .loc location)] },
       { step_type := .RESPOND_TO_USER,
         description := "Present service providers to customer",
         message := some "Your product is no longer under warranty. Here are authorized service providers in your area:" }]
    (_build_response steps "SALT non-warranty path - returning service directory", context)
  else
    let steps := steps ++
      [{ step_type := .CALL_TOOL,
         description := "Route warranty case to SALT queue",
         tool_name := some "route_to_queue",
         tool_args := some
           [("queue", .s "WarrantySalt"), ("case_context", .ctx context), ("priority", .s "normal")] },
       { step_type := .CALL_TOOL,
         description := "Notify customer of next steps",
         tool_name := some "notify_next_steps",
         tool_args := some
           [("channel", .s "chat"),
            ("template_id", .s "warranty_queued"),
            ("context", .dict
              [("product_name", .optS context.product_id),
               ("estimated_response_time", .s "24-48 hours"),
               ("next_action", .s "A warranty specialist will contact you")])] },
       { step_type := .RESPOND_TO_USER,
         description := "Confirm case creation to customer",
         message := some "Your warranty claim has been submitted! A specialist will contact you within 24-48 hours." }]
    (_build_response steps "SALT warranty path - case queued for service", context)

/-- Source function `generate_plan` of `src/mcp_servers/planner.py`. The
result is paired with the context dictionary the caller handed in, which
the source returns to its caller untouched (it performs no writes). -/
def generate_plan (context : CaseContext) (user_message : String) :
    PlanResponse × CaseContext :=
  let product_id := pyOrS context.product_id context.serial_number
  let product_name := context.product_name
  let location := context.location
  let product_type := context.product_type
  let warranty_status := context.warranty_status
  let customer_decision := context.customer_decision
  let potential_charges := context.potential_charges
  let has_location := truthyS location.zip || (truthyS location.city && truthyS location.state)
  let missing_fields :=
    (if !truthyS product_id then ["product ID or serial number"] else []) ++
    (if !truthyS product_name then
      ["product name (e.g., \x27heat pump water heater\x27, \x27water softener\x27)"] else []) ++
    (if !has_location then ["location (zip code or city/state)"] else [])
  if !missing_fields.isEmpty then
    let steps := [{ step_type := .ASK_USER_FOR_INFO,
                    description := "Collect missing information required for warranty processing",
                    required_fields := some missing_fields,
                    message := some ("To help you better, I need a few details: " ++
                      String.intercalate ", " missing_fields ++
                      ". Please provide these so I can look up your warranty information.") : PlanStep }]
    (_build_response steps ("Missing required fields: " ++ pyReprList missing_fields), context)
  else if !truthyS product_type || warranty_status.active == none then
    let steps : List PlanStep :=
      [{ step_type := .CALL_TOOL,
         description := "Look up warranty record to determine product type and warranty status",
         tool_name := some "get_warranty_record",
         tool_args := some [("product_id", .optS product_id)] },
       { step_type := .RESPOND_TO_USER,
         description := "Inform user of warranty lookup results",
         message := some "I\x27ve retrieved your warranty information. Let me explain your coverage..." }]
    (_build_response steps "Need to determine warranty status and product type", context)
  else if product_type == some "SALT" then
    _generate_salt_plan [] context warranty_status
  else if product_type == some "HEAT" then
    _generate_heat_plan [] context warranty_status customer_decision potential_charges user_message
  else
    let steps : List PlanStep :=
      [{ step_type := .RESPOND_TO_USER,
         description := "Handle unknown product type",
         message := some ("I found an unexpected product type: " ++ optStr product_type ++
           ". Let me connect you with support.") },
       { step_type := .RETURN_ACTION,
         description := "Escalate unknown product type",
         action_type := some .ESCALATE }]
    (_build_response steps ("Unknown product type: " ++ optStr product_type), context)

/-- Valid step types accepted by the orchestrator validator. -/
def STEP_TYPES : List String :=
  ["ASK_USER_FOR_INFO", "CALL_TOOL", "RETURN_ACTION", "RESPOND_TO_USER"]

/-- Valid action types accepted by the orchestrator validator. -/
def ACTION_TYPES : List String :=
  ["PROMPT_LOGIN", "PROMPT_PRODUCT_REGISTRATION", "CASE_COMPLETE", "ESCALATE"]

/-- Source method `WarrantyOrchestrator._validate_plan`: walks the steps and
raises `PlanValidationError` (modelled as `Except.error` carrying the
exception message) on an invalid step type, or on a `RETURN_ACTION` step
whose action type is truthy but not among the valid action types. -/
def _validate_plan : List OStep → Except String Unit
  | [] => .ok ()
  | step :: rest =>
    if !STEP_TYPES.contains step.step_type then
      .error ("Invalid step type: " ++ step.step_type)
    else if step.step_type == "RETURN_ACTION" && truthyS step.action_type &&
        !ACTION_TYPES.contains (step.action_type.getD "") then
      .error ("Invalid action type: " ++ step.action_type.getD "")
    else
      _validate_plan rest

/-- The data dictionary of a successful tool result, restricted to the keys
the orchestrator folds back into the case context (other keys are passed
through to the user and never read by the core). -/
structure ToolData where
  product_type : Option String := none
  product_name : Option String := none
  purchase_date : Option String := none
  warranty_status : Option WarrantyStatus := none
  summary_total : Option ℚ := none
  serviceable : Option Bool := none
  case_id : Option String := none

/-- Result dictionary of a tool call: either `status="ok"` with a data
dictionary, or `status="error"` with an error code and a message. -/
inductive ToolResult where
  | ok (d : ToolData)
  | err (error_code message : String)

/-- Behaviour of one collaborator invocation, used as an oracle by the
embedded executor: the collaborator either returns a data dictionary,
returns a structured error result itself, or raises an exception. -/
inductive ToolOutcome where
  | ok (d : ToolData)
  | errRes (error_code message : String)
  | raises (message : String)

/-- A collaborator-behaviour oracle: what each named tool does when invoked
with given arguments on the current case. -/
def ToolBeh := String → List (String × ArgVal) → CaseContext → ToolOutcome

/-- The tool names dispatched by `WarrantyOrchestrator._execute_tool`. -/
def knownTools : List String :=
  ["get_plan", "get_warranty_record", "get_warranty_terms", "calculate_charges",
   "route_to_queue", "get_service_directory", "check_territory",
   "generate_paypal_link", "log_decline_reason", "notify_next_steps", "run_calculation"]

/-- Source method `WarrantyOrchestrator._execute_tool`: dispatches to the
named collaborator inside a try/except; an unknown tool yields an
`UNKNOWN_TOOL` error result and any raised exception is caught and
converted into a `TOOL_ERROR` error result. -/
def _execute_tool (beh : ToolBeh) (tool_name : Option String)
    (tool_args : List (String × ArgVal)) (case : CaseContext) : ToolResult :=
  match tool_name with
  | some n =>
    if knownTools.contains n then
      match beh n tool_args case with
      | .ok d => .ok d
      | .errRes c m => .err c m
      | .raises m => .err "TOOL_ERROR" m
    else .err "UNKNOWN_TOOL" ("Tool not found: " ++ n)
  | none => .err "UNKNOWN_TOOL" "Tool not found: None"

/-- Source method `WarrantyOrchestrator._update_case_from_tool_result`:
returns the case unchanged unless the result has `status="ok"`, in which
case the per-tool fixed mapping folds the data into the case context. -/
def _update_case_from_tool_result (case : CaseContext) (tool_name : Option String)
    (result : ToolResult) : CaseContext :=
  match result with
  | .err _ _ => case
  | .ok data =>
    if tool_name == some "get_warranty_record" then
      let wd := data.warranty_status.getD {}
      { case with
        product_type := data.product_type
        product_name := data.product_name
        purchase_date := data.purchase_date
        warranty_status :=
          { active := some (wd.active.getD false)
            coverage_types := wd.coverage_types
            expiration_date := none } }
    else if tool_name == some "calculate_charges" then
      { case with potential_charges := data.summary_total }
    else if tool_name == some "check_territory" then
      { case with territory_checked := some true
                  territory_serviceable := some (data.serviceable.getD false) }
    else if tool_name == some "route_to_queue" then
      if truthyS data.case_id then { case with case_id := data.case_id } else case
    else case

/-- Action-data payload attached to the executor outcome. -/
inductive ActionData where
  | noneD
  | msg (m : String)
  | fields (fs : List String)
deriving DecidableEq, Repr

/-- Intermediate state of the executor loop in
`WarrantyOrchestrator._execute_plan`: accumulated responses, the recorded
action with its payload, and the (mutated) case context. -/
structure ExecState where
  responses : List String
  action : Option String
  action_data : ActionData
  case : CaseContext

/-- The step loop of `WarrantyOrchestrator._execute_plan`: `RETURN_ACTION`
and `ASK_USER_FOR_INFO` record an action and stop, `CALL_TOOL` invokes the
collaborator and folds the result into the case, `RESPOND_TO_USER` appends
its message, and a step with any other type is silently skipped. -/
def execSteps (beh : ToolBeh) : List OStep → CaseContext → List String → ExecState
  | [], case, responses => ⟨responses, none, .noneD, case⟩
  | step :: rest, case, responses =>
    if step.step_type == "RETURN_ACTION" then
      ⟨responses ++ [step.message.getD ""], step.action_type, .msg (step.message.getD ""), case⟩
    else if step.step_type == "ASK_USER_FOR_INFO" then
      ⟨responses ++ [step.message.getD ""], some "ASK_USER", .fields (step.required_fields.getD []), case⟩
    else if step.step_type == "CALL_TOOL" then
      let result := _execute_tool beh step.tool_name (step.tool_args.getD []) case
      let case := _update_case_from_tool_result case step.tool_name result
      execSteps beh rest case responses
    else if step.step_type == "RESPOND_TO_USER" then
      execSteps beh rest case (responses ++ [step.message.getD ""])
    else
      execSteps beh rest case responses

/-- Final result of one executed turn. -/
structure ExecResult where
  response : String
  action : Option String
  action_data : ActionData
deriving DecidableEq, Repr

/-- Source method `WarrantyOrchestrator._execute_plan`: runs the step loop
and assembles the newline-joined response (with the default filler when no
message was appended). -/
def _execute_plan (beh : ToolBeh) (plan : List OStep) (case : CaseContext) :
    ExecResult × CaseContext :=
  let st := execSteps beh plan case []
  ({ response :=
       if st.responses.isEmpty then "I\x27m here to help with your warranty request."
       else String.intercalate "\n\n" st.responses
     action := st.action
     action_data := st.action_data }, st.case)

/-- The plan-handling core of `WarrantyOrchestrator._execute_workflow` on an
already-obtained plan: the try/except around `_validate_plan` catches
`PlanValidationError` and turns it into a user-facing response; the value
is wrapped in `Except` so that an exception escaping to the top-level
handler of `process_request` would show up as `Except.error`. -/
def _execute_workflow_on_plan (beh : ToolBeh) (plan : List OStep)
    (case : CaseContext) : Except String (ExecResult × CaseContext) :=
  match _validate_plan plan with
  | .error e =>
    .ok ({ response := "I need to verify some information. " ++ e,
           action := none, action_data := .noneD }, case)
  | .ok _ => .ok (_execute_plan beh plan case)

/-- An entry of the in-memory `queued_cases` store of the actions server. -/
structure QueueEntry where
  case_id : String
  queue : String
  priority : String
  case_context : CaseContext
  created_at : String
  status : String
  idempotency_key : Option String
deriving Repr

/-- Result data of `route_to_queue` (fields absent from a branch are
`none`; the duplicate flag is only ever set by the duplicate branch). -/
structure RouteData where
  case_id : String
  queue : String
  priority : Option String := none
  message : Option String := none
  duplicate : Bool := false
  estimated_response_time : Option String := none
  position_in_queue : Option ℕ := none
deriving Repr

/-- Source function `route_to_queue` of `src/mcp_servers/actions.py`. The
freshly generated case identifier and the timestamp are oracle inputs; the
module-level `queued_cases` list is threaded explicitly. -/
def route_to_queue (queue : String) (case_context : CaseContext) (priority : String)
    (idempotency_key : Option String) (fresh_case_id now : String)
    (queued_cases : List QueueEntry) : RouteData × List QueueEntry :=
  let dup :=
    if truthyS idempotency_key then
      queued_cases.find? (fun c => c.idempotency_key == idempotency_key)
    else none
  match dup with
  | some c =>
    ({ case_id := c.case_id, queue := c.queue,
       message := some "Case already queued (duplicate prevented)",
       duplicate := true }, queued_cases)
  | none =>
    let entry : QueueEntry :=
      { case_id := fresh_case_id, queue := queue, priority := priority,
        case_context := case_context, created_at := now, status := "pending",
        idempotency_key := idempotency_key }
    let queued_cases := queued_cases ++ [entry]
    ({ case_id := fresh_case_id, queue := queue, priority := some priority,
       estimated_response_time :=
         some (if priority == "normal" then "24-48 hours" else "4-8 hours"),
       position_in_queue := some ((queued_cases.filter (fun c => c.queue == queue)).length) },
     queued_cases)

/-- An entry of the in-memory `generated_links` store of the actions server. -/
structure LinkEntry where
  payment_id : String
  payment_url : String
  amount : ℚ
  currency : String
  metadata : List (String × ArgVal)
  created_at : String
  status : String
  idempotency_key : Option String

/-- Result data of `generate_paypal_link`. -/
structure PayData where
  payment_id : String
  payment_url : String
  message : Option String := none
  duplicate : Bool := false
  amount : Option ℚ := none
  currency : Option String := none
  expires_in_hours : Option ℕ := none
  description : Option String := none

/-- Source function `generate_paypal_link` of `src/mcp_servers/actions.py`;
the fresh payment identifier and the timestamp are oracle inputs. -/
def generate_paypal_link (amount : ℚ) (metadata : List (String × ArgVal))
    (currency : String) (idempotency_key : Option String)
    (fresh_payment_id now : String) (generated_links : List LinkEntry) :
    PayData × List LinkEntry :=
  let dup :=
    if truthyS idempotency_key then
      generated_links.find? (fun l => l.idempotency_key == idempotency_key)
    else none
  match dup with
  | some l =>
    ({ payment_id := l.payment_id, payment_url := l.payment_url,
       message := some "Payment link already generated (duplicate prevented)",
       duplicate := true }, generated_links)
  | none =>
    let payment_url := "https://www.sandbox.paypal.com/checkoutnow?token=" ++ fresh_payment_id
    let entry : LinkEntry :=
      { payment_id := fresh_payment_id, payment_url := payment_url, amount := amount,
        currency := currency, metadata := metadata, created_at := now,
        status := "pending", idempotency_key := idempotency_key }
    let generated_links := generated_links ++ [entry]
    ({ payment_id := fresh_payment_id, payment_url := payment_url,
       amount := some amount, currency := some currency, expires_in_hours := some 72,
       description := some
         (match metadata.lookup "description" with
          | some (.s d) => d
          | _ => "Service charge payment") },
     generated_links)

/-- An entry of the in-memory `logged_declines` store of the actions server. -/
structure DeclineEntry where
  log_id : String
  reason : String
  context : List (String × ArgVal)
  logged_at : String
  idempotency_key : Option String

/-- Result data of `log_decline_reason`. -/
structure LogData where
  log_id : String
  reason : Option String := none
  logged_at : Option String := none
  message : Option String := none
  duplicate : Bool := false

/-- Source function `log_decline_reason` of `src/mcp_servers/actions.py`;
the fresh log identifier and the timestamp are oracle inputs. -/
def log_decline_reason (reason : String) (context : List (String × ArgVal))
    (idempotency_key : Option String) (fresh_log_id now : String)
    (logged_declines : List DeclineEntry) : LogData × List DeclineEntry :=
  let dup :=
    if truthyS idempotency_key then
      logged_declines.find? (fun l => l.idempotency_key == idempotency_key)
    else none
  match dup with
  | some l =>
    ({ log_id := l.log_id,
       message := some "Decline already logged (duplicate prevented)",
       duplicate := true }, logged_declines)
  | none =>
    let entry : DeclineEntry :=
      { log_id := fresh_log_id, reason := reason, context := context,
        logged_at := now, idempotency_key := idempotency_key }
    let logged_declines := logged_declines ++ [entry]
    ({ log_id := fresh_log_id, reason := some reason, logged_at := some now,
       message := some "Decline reason logged successfully" }, logged_declines)

/-- Whether some step of a plan invokes the named tool. -/
def hasTool (plan : List OStep) (t : String) : Bool :=
  plan.any (fun s => s.tool_name == some t)

/-- Whether every `check_territory` step of the plan occurs strictly before
the first `generate_paypal_link` step: the steps before the first payment
step already contain every territory check of the plan. -/
def territoryBeforePayment (plan : List OStep) : Prop :=
  (plan.takeWhile (fun s => !(s.tool_name == some "generate_paypal_link"))).any
      (fun s => s.tool_name == some "check_territory")
    = hasTool plan "check_territory"

/-- The context of the repository test `test_not_logged_in_returns_prompt_login`:
not logged in, no registered products, no other keys. -/
def ctxNotLoggedIn : CaseContext :=
  { logged_in := false, has_registered_products := false }

/-- A fully-populated HEAT context that is not logged in. -/
def ctxNotLoggedInFull : CaseContext :=
  { logged_in := false, has_registered_products := false,
    product_id := some "HEAT-001", product_name := some "heat pump water heater",
    location := { zip := some "77001" }, product_type := some "HEAT",
    warranty_status := { active := some true }, potential_charges := some 220 }

/-- C1: the claim states that for every context with `logged_in=False`,
`generate_plan` returns exactly one step, `RETURN_ACTION(PROMPT_LOGIN)`.
The code has no login gate at all (its docstring assumes the frontend
handles login), contradicting the repository test
`test_not_logged_in_returns_prompt_login`, which asserts exactly the
claim: on that test input the plan is a single `ASK_USER_FOR_INFO` step
with no action type, and on a fully-populated not-logged-in HEAT context
the plan runs the charge flow instead of prompting login. -/
theorem C1_login_gate_missing_code_bug :
    ((generate_plan ctxNotLoggedIn "I need help with my product").1.plan.map
        (fun s => (s.step_type, s.action_type)))
      = [("ASK_USER_FOR_INFO", none)]
    ∧ ((generate_plan ctxNotLoggedInFull "yes").1.plan.map
        (fun s => (s.step_type, s.tool_name)))
      = [("CALL_TOOL", some "check_territory"),
         ("CALL_TOOL", some "generate_paypal_link"),
         ("RESPOND_TO_USER", none)] := by
  exact ⟨rfl, rfl⟩

/-- The context of the repository test
`test_complete_context_triggers_warranty_lookup`: product identifier and a
complete location are present, `product_name` is not. -/
def ctxIdAndLocation : CaseContext :=
  { logged_in := true, has_registered_products := true,
    product_id := some "HEAT-001", location := { zip := some "77001" } }

/-- C4: the claim (and `CaseContext.get_missing_fields`, and the repository
test `test_complete_context_triggers_warranty_lookup`) say the missing
fields are exactly the product identifier and the location, so this
context is complete; but `generate_plan` additionally requires
`product_name` and returns an `ASK_USER_FOR_INFO` step naming it instead
of proceeding to the warranty lookup. (`CaseContext.to_dict` does not even
emit a `product_name` key, so through the orchestrator this gate can never
be passed.) -/
theorem C4_product_name_requirement_code_bug :
    ctxIdAndLocation.get_missing_fields = []
    ∧ ((generate_plan ctxIdAndLocation "I need help").1.plan.map
        (fun s => (s.step_type, s.required_fields)))
      = [("ASK_USER_FOR_INFO",
          some ["product name (e.g., \x27heat pump water heater\x27, \x27water softener\x27)"])] := by
  exact ⟨rfl, rfl⟩

/-- A HEAT context whose territory has not been checked yet
(`territory_checked=None`) while `territory_serviceable` is `False`. -/
def ctxHeatUnchecked : CaseContext :=
  { logged_in := true, has_registered_products := true,
    product_id := some "HEAT-001", product_name := some "heat pump water heater",
    location := { zip := some "99999" }, product_type := some "HEAT",
    warranty_status := { active := some true }, potential_charges := some 220,
    territory_checked := none, territory_serviceable := some false }

/-- C2 counterexample: a proceeding HEAT context with
`territory_serviceable=False` but `territory_checked=None` gets a plan
containing `generate_paypal_link` and no `get_service_directory`, because
the guard `territory_checked and not territory_serviceable` is falsy when
the check has not run yet; this contradicts the claim, which requires the
service directory and no payment link whenever
`territory_serviceable=False`. -/
theorem C2_counterexample_unchecked_territory :
    hasTool (generate_plan ctxHeatUnchecked "yes").1.plan "generate_paypal_link" = true
    ∧ hasTool (generate_plan ctxHeatUnchecked "yes").1.plan "get_service_directory" = false := by
  exact ⟨rfl, rfl⟩

/-- A HEAT context whose warranty status has not been determined yet. -/
def ctxHeatNoWarranty : CaseContext :=
  { logged_in := true, has_registered_products := true,
    product_id := some "HEAT-001", product_name := some "heat pump water heater",
    location := { zip := some "77001" }, product_type := some "HEAT",
    warranty_status := {}, potential_charges := none }

/-- C3 counterexample: a HEAT context with `potential_charges=None` whose
warranty status is not yet determined gets `get_warranty_record` as its
first `CALL_TOOL` (not `calculate_charges`) and ends with a
`RESPOND_TO_USER` step (not an `ASK_USER_FOR_INFO` naming
`proceed_confirmation`), contradicting the claim as stated for every HEAT
context. -/
theorem C3_counterexample_warranty_gate :
    ((generate_plan ctxHeatNoWarranty "my heater makes noise").1.plan.head?.bind
        (fun s => s.tool_name)) = some "get_warranty_record"
    ∧ ((generate_plan ctxHeatNoWarranty "my heater makes noise").1.plan.getLast?.map
        (fun s => s.step_type)) = some "RESPOND_TO_USER" := by
  exact ⟨rfl, rfl⟩

/-- C7 counterexample: a plan containing a step with the invalid step type
`BOGUS` makes `_validate_plan` raise, but `_execute_workflow` catches the
`PlanValidationError` and returns a normal user-facing response — the
workflow result is `Except.ok`, so no hard internal error propagates to
the top-level handler of `process_request`, contradicting the claim. -/
theorem C7_counterexample_validation_caught :
    _execute_workflow_on_plan (fun _ _ _ => .raises "boom")
        [{ step_type := "BOGUS" }] {}
      = .ok ({ response := "I need to verify some information. Invalid step type: BOGUS",
               action := none, action_data := .noneD }, {}) := by
  rfl

/-- Helper: under the information and warranty gates, with a HEAT product
type and a determined warranty status, `generate_plan` reduces to the HEAT
sub-flow. -/
theorem generate_plan_heat_branch (ctx : CaseContext) (msg : String) (b : Bool)
    (h1 : truthyS (pyOrS ctx.product_id ctx.serial_number) = true)
    (h2 : truthyS ctx.product_name = true)
    (h3 : (truthyS ctx.location.zip || (truthyS ctx.location.city && truthyS ctx.location.state)) = true)
    (h4 : ctx.product_type = some "HEAT")
    (h5 : ctx.warranty_status.active = some b) :
    generate_plan ctx msg =
      _generate_heat_plan [] ctx ctx.warranty_status ctx.customer_decision ctx.potential_charges msg := by
  have eH : truthyS (some "HEAT") = true := by decide
  have eA : ∀ c : Bool, ((some c : Option Bool) == none) = false := by decide
  have eS : ((some "HEAT" : Option String) == some "SALT") = false := by decide
  have eT : ((some "HEAT" : Option String) == some "HEAT") = true := by decide
  unfold generate_plan
  simp [h1, h2, h3, h4, h5, eH, eA, eS, eT]

/-- C2 (amended): in a proceeding HEAT turn (gates passed, charges known,
no decline keyword, decision not DECLINE, and an accept keyword or
decision PROCEED), if `territory_serviceable` is `True` the plan contains
`generate_paypal_link` and no `get_service_directory`; if the territory
has already been checked (`territory_checked` truthy) and is not
serviceable, the plan contains `get_service_directory` and no
`generate_paypal_link`; and within the plan every `check_territory` step
precedes the first `generate_paypal_link` step. (The original claim is
false when `territory_serviceable=False` while `territory_checked=None`:
see the counterexample.) -/
theorem C2_territory_vs_payment (ctx : CaseContext) (msg : String) (b : Bool) (amt : ℚ)
    (h1 : truthyS (pyOrS ctx.product_id ctx.serial_number) = true)
    (h2 : truthyS ctx.product_name = true)
    (h3 : (truthyS ctx.location.zip || (truthyS ctx.location.city && truthyS ctx.location.state)) = true)
    (h4 : ctx.product_type = some "HEAT")
    (h5 : ctx.warranty_status.active = some b)
    (h6 : ctx.potential_charges = some amt)
    (h7 : is_no_msg (lowerStr msg) = false)
    (h8 : (ctx.customer_decision == some "DECLINE") = false)
    (h9 : (is_yes_msg (lowerStr msg) || (ctx.customer_decision == some "PROCEED")) = true) :
    (ctx.territory_serviceable = some true →
      hasTool (generate_plan ctx msg).1.plan "generate_paypal_link" = true
      ∧ hasTool (generate_plan ctx msg).1.plan "get_service_directory" = false)
    ∧ (truthyOB ctx.territory_checked = true → truthyOB ctx.territory_serviceable = false →
      hasTool (generate_plan ctx msg).1.plan "get_service_directory" = true
      ∧ hasTool (generate_plan ctx msg).1.plan "generate_paypal_link" = false)
    ∧ territoryBeforePayment (generate_plan ctx msg).1.plan := by
  have eOB : ∀ c : Bool, truthyOB (some c) = c := by decide
  rw [generate_plan_heat_branch ctx msg b h1 h2 h3 h4 h5]
  unfold _generate_heat_plan
  rw [h6]
  simp only [h7, h8, Bool.false_or, Bool.or_false, if_neg, ite_false, Bool.false_eq_true,
    if_pos, h9, ite_true]
  unfold _continue_heat_proceed_flow
  rcases hc : ctx.territory_checked with _ | cb <;>
    rcases hs : ctx.territory_serviceable with _ | sb <;>
    first
      | (cases cb <;> cases sb <;>
          simp [eOB, hasTool, territoryBeforePayment, PlanStep.to_dict, StepType.toStr,
            truthyS, truthyOB, _build_response, List.any_append])
      | (cases cb <;>
          simp [eOB, hasTool, territoryBeforePayment, PlanStep.to_dict, StepType.toStr,
            truthyS, truthyOB, _build_response, List.any_append])
      | (cases sb <;>
          simp [eOB, hasTool, territoryBeforePayment, PlanStep.to_dict, StepType.toStr,
            truthyS, truthyOB, _build_response, List.any_append])
      | simp [eOB, hasTool, territoryBeforePayment, PlanStep.to_dict, StepType.toStr,
          truthyS, truthyOB, _build_response, List.any_append]

/-- Concrete serviceable HEAT context for the C2 witness. -/
def ctxHeatServiceable : CaseContext :=
  { logged_in := true, has_registered_products := true,
    product_id := some "HEAT-001", product_name := some "heat pump water heater",
    location := { zip := some "77001" }, product_type := some "HEAT",
    warranty_status := { active := some true }, potential_charges := some 220,
    territory_checked := some true, territory_serviceable := some true }

/-- Witness for C2: on a concrete serviceable proceeding context the plan
holds a payment link and no service directory. -/
theorem C2_territory_vs_payment_witness :
    hasTool (generate_plan ctxHeatServiceable "yes").1.plan "generate_paypal_link" = true
    ∧ hasTool (generate_plan ctxHeatServiceable "yes").1.plan "get_service_directory" = false :=
  (C2_territory_vs_payment ctxHeatServiceable "yes" true 220 (by decide) (by decide) (by decide)
    rfl rfl rfl (by decide) (by decide) (by decide)).1 rfl

/-- C3 (amended): for a HEAT context that has passed the information gate
and whose warranty status is determined, if `potential_charges` is unset
the plan is exactly a `calculate_charges` call followed by an
`ASK_USER_FOR_INFO` naming `proceed_confirmation`, with no
`check_territory` and no `generate_paypal_link`. (The original claim over
every HEAT context is false when the warranty gate has not fired yet: see
the counterexample.) -/
theorem C3_charges_first_then_ask (ctx : CaseContext) (msg : String) (b : Bool)
    (h1 : truthyS (pyOrS ctx.product_id ctx.serial_number) = true)
    (h2 : truthyS ctx.product_name = true)
    (h3 : (truthyS ctx.location.zip || (truthyS ctx.location.city && truthyS ctx.location.state)) = true)
    (h4 : ctx.product_type = some "HEAT")
    (h5 : ctx.warranty_status.active = some b)
    (h6 : ctx.potential_charges = none) :
    ((generate_plan ctx msg).1.plan.map (fun s => s.step_type)) = ["CALL_TOOL", "ASK_USER_FOR_INFO"]
    ∧ ((generate_plan ctx msg).1.plan.head?.bind (fun s => s.tool_name)) = some "calculate_charges"
    ∧ hasTool (generate_plan ctx msg).1.plan "check_territory" = false
    ∧ hasTool (generate_plan ctx msg).1.plan "generate_paypal_link" = false
    ∧ ((generate_plan ctx msg).1.plan.getLast?.bind (fun s => s.required_fields))
      = some ["proceed_confirmation"] := by
  rw [generate_plan_heat_branch ctx msg b h1 h2 h3 h4 h5]
  unfold _generate_heat_plan
  rw [h6]
  simp [hasTool, PlanStep.to_dict, _build_response, StepType.toStr, truthyS]

/-- Concrete HEAT context without charges for the C3 witness. -/
def ctxHeatNoCharges : CaseContext :=
  { logged_in := true, has_registered_products := true,
    product_id := some "HEAT-001", product_name := some "heat pump water heater",
    location := { zip := some "77001" }, product_type := some "HEAT",
    warranty_status := { active := some true }, potential_charges := none }

/-- Witness for C3: the concrete chargeless HEAT context yields exactly the
charge-calculation-then-ask plan. -/
theorem C3_charges_first_then_ask_witness :
    ((generate_plan ctxHeatNoCharges "my heater makes noise").1.plan.map (fun s => s.step_type))
      = ["CALL_TOOL", "ASK_USER_FOR_INFO"]
    ∧ ((generate_plan ctxHeatNoCharges "my heater makes noise").1.plan.head?.bind (fun s => s.tool_name))
      = some "calculate_charges"
    ∧ hasTool (generate_plan ctxHeatNoCharges "my heater makes noise").1.plan "check_territory" = false
    ∧ hasTool (generate_plan ctxHeatNoCharges "my heater makes noise").1.plan "generate_paypal_link" = false
    ∧ ((generate_plan ctxHeatNoCharges "my heater makes noise").1.plan.getLast?.bind
        (fun s => s.required_fields)) = some ["proceed_confirmation"] :=
  C3_charges_first_then_ask ctxHeatNoCharges "my heater makes noise" true
    (by decide) (by decide) (by decide) rfl rfl rfl

/-- C10: in the HEAT flow with charges known, a decline-keyword match wins
over everything else: even when the message also matches an accept keyword
and the recorded decision is arbitrary (in particular PROCEED), the plan
is the decline plan — `log_decline_reason` followed by an acknowledgement,
with no territory check, payment link or service directory. -/
theorem C10_decline_overrides_proceed (ctx : CaseContext) (msg : String) (b : Bool) (amt : ℚ)
    (h1 : truthyS (pyOrS ctx.product_id ctx.serial_number) = true)
    (h2 : truthyS ctx.product_name = true)
    (h3 : (truthyS ctx.location.zip || (truthyS ctx.location.city && truthyS ctx.location.state)) = true)
    (h4 : ctx.product_type = some "HEAT")
    (h5 : ctx.warranty_status.active = some b)
    (h6 : ctx.potential_charges = some amt)
    (h7 : is_no_msg (lowerStr msg) = true)
    (h8 : is_yes_msg (lowerStr msg) = true) :
    ((generate_plan ctx msg).1.plan.map (fun s => s.step_type)) = ["CALL_TOOL", "RESPOND_TO_USER"]
    ∧ ((generate_plan ctx msg).1.plan.head?.bind (fun s => s.tool_name)) = some "log_decline_reason"
    ∧ hasTool (generate_plan ctx msg).1.plan "generate_paypal_link" = false
    ∧ hasTool (generate_plan ctx msg).1.plan "check_territory" = false
    ∧ hasTool (generate_plan ctx msg).1.plan "get_service_directory" = false := by
  rw [generate_plan_heat_branch ctx msg b h1 h2 h3 h4 h5]
  unfold _generate_heat_plan
  rw [h6]
  simp [h7, hasTool, PlanStep.to_dict, StepType.toStr, truthyS, _build_response]

/-- Concrete proceeding-then-declining HEAT context for the C10 witness. -/
def ctxHeatProceedRecorded : CaseContext :=
  { logged_in := true, has_registered_products := true,
    product_id := some "HEAT-001", product_name := some "heat pump water heater",
    location := { zip := some "77001" }, product_type := some "HEAT",
    warranty_status := { active := some true }, potential_charges := some 220,
    customer_decision := some "PROCEED" }

/-- Witness for C10: the message both accepts and declines
(it contains the accept word yes and the decline word expensive) while the
recorded decision is PROCEED, and the plan is still the decline plan. -/
theorem C10_decline_overrides_proceed_witness :
    ((generate_plan ctxHeatProceedRecorded "yes but that\x27s too expensive").1.plan.map
        (fun s => s.step_type)) = ["CALL_TOOL", "RESPOND_TO_USER"]
    ∧ ((generate_plan ctxHeatProceedRecorded "yes but that\x27s too expensive").1.plan.head?.bind
        (fun s => s.tool_name)) = some "log_decline_reason"
    ∧ hasTool (generate_plan ctxHeatProceedRecorded "yes but that\x27s too expensive").1.plan
        "generate_paypal_link" = false
    ∧ hasTool (generate_plan ctxHeatProceedRecorded "yes but that\x27s too expensive").1.plan
        "check_territory" = false
    ∧ hasTool (generate_plan ctxHeatProceedRecorded "yes but that\x27s too expensive").1.plan
        "get_service_directory" = false :=
  C10_decline_overrides_proceed ctxHeatProceedRecorded "yes but that\x27s too expensive" true 220
    (by decide) (by decide) (by decide) rfl rfl rfl (by decide) (by decide)

/-- A plan is non-empty and its terminal step kinds (`ASK_USER_FOR_INFO`
and `RETURN_ACTION`) occur at most as its final step. -/
def terminalOnlyLast (p : List OStep) : Prop :=
  p.isEmpty = false
    ∧ (p.dropLast.all (fun s => !(s.step_type == "ASK_USER_FOR_INFO" || s.step_type == "RETURN_ACTION")) = true)

/-- Helper: HEAT plans keep terminals last. -/
theorem heat_terminalOnlyLast (ctx : CaseContext) (ws : WarrantyStatus) (cd : Option String)
    (pc : Option ℚ) (msg : String) :
    terminalOnlyLast (_generate_heat_plan [] ctx ws cd pc msg).1.plan := by
  unfold _generate_heat_plan _continue_heat_proceed_flow
  simp only [_build_response, PlanStep.to_dict, StepType.toStr, terminalOnlyLast]
  repeat' split
  all_goals simp [PlanStep.to_dict, StepType.toStr]

/-- Helper: SALT plans keep terminals last. -/
theorem salt_terminalOnlyLast (ctx : CaseContext) (ws : WarrantyStatus) :
    terminalOnlyLast (_generate_salt_plan [] ctx ws).1.plan := by
  unfold _generate_salt_plan
  simp only [_build_response, PlanStep.to_dict, StepType.toStr, terminalOnlyLast]
  repeat' split
  all_goals simp [PlanStep.to_dict, StepType.toStr]

/-- C9: every plan produced by `generate_plan` is non-empty, and the
terminal step kinds `ASK_USER_FOR_INFO` and `RETURN_ACTION` only ever
appear as the final step, so the stop-on-terminal rule of the executor
never skips a `CALL_TOOL` or `RESPOND_TO_USER` step the planner emitted. -/
theorem C9_terminal_steps_only_last : ∀ (ctx : CaseContext) (msg : String),
    terminalOnlyLast (generate_plan ctx msg).1.plan := by
  intro ctx msg
  unfold generate_plan
  simp only [_build_response, PlanStep.to_dict, StepType.toStr]
  repeat' split
  all_goals first
    | exact heat_terminalOnlyLast ctx ctx.warranty_status ctx.customer_decision ctx.potential_charges msg
    | exact salt_terminalOnlyLast ctx ctx.warranty_status
    | simp [terminalOnlyLast, PlanStep.to_dict, StepType.toStr]

/-- Helper: the SALT sub-planner returns the context untouched. -/
theorem salt_ctx_unchanged (steps : List PlanStep) (ctx : CaseContext) (ws : WarrantyStatus) :
    (_generate_salt_plan steps ctx ws).2 = ctx := by
  unfold _generate_salt_plan
  simp only [_build_response]
  repeat' split
  all_goals rfl

/-- Helper: the HEAT proceed sub-planner returns the context untouched. -/
theorem flow_ctx_unchanged (steps : List PlanStep) (ctx : CaseContext) (loc : Location)
    (pid : Option String) (amt : ℚ) :
    (_continue_heat_proceed_flow steps ctx loc pid amt).2 = ctx := by
  unfold _continue_heat_proceed_flow
  simp only [_build_response]
  repeat' split
  all_goals rfl

/-- Helper: the HEAT sub-planner returns the context untouched. -/
theorem heat_ctx_unchanged (steps : List PlanStep) (ctx : CaseContext) (ws : WarrantyStatus)
    (cd : Option String) (pc : Option ℚ) (msg : String) :
    (_generate_heat_plan steps ctx ws cd pc msg).2 = ctx := by
  unfold _generate_heat_plan
  simp only [_build_response]
  repeat' split
  all_goals first
    | rfl
    | exact flow_ctx_unchanged _ ctx _ _ _

/-- C8: `generate_plan` is deterministic — two runs on equal context and
message yield equal plan responses — and side-effect free: the context it
hands back (the dictionary it was given) is unchanged in every branch. -/
theorem C8_deterministic_no_mutation : ∀ (c₁ c₂ : CaseContext) (m₁ m₂ : String),
    c₁ = c₂ → m₁ = m₂ →
    (generate_plan c₁ m₁).1 = (generate_plan c₂ m₂).1 ∧ (generate_plan c₁ m₁).2 = c₁ := by
  intro c₁ c₂ m₁ m₂ hc hm
  subst hc
  subst hm
  refine ⟨rfl, ?_⟩
  unfold generate_plan
  simp only [_build_response]
  repeat' split
  all_goals first
    | rfl
    | exact heat_ctx_unchanged _ c₁ _ _ _ _
    | exact salt_ctx_unchanged _ c₁ _

/-- Witness for C8 at a concrete context and message. -/
theorem C8_deterministic_no_mutation_witness :
    (generate_plan ctxHeatServiceable "yes").1 = (generate_plan ctxHeatServiceable "yes").1
    ∧ (generate_plan ctxHeatServiceable "yes").2 = ctxHeatServiceable :=
  C8_deterministic_no_mutation ctxHeatServiceable ctxHeatServiceable "yes" "yes" rfl rfl

/-- C5: when a known tool invocation raises, `_execute_tool` catches the
exception and returns a structured `TOOL_ERROR` result with the message;
folding an error result leaves the case context unchanged; and the
executor continues with the remaining steps of the plan exactly as if the
failing step were skipped. -/
theorem C5_tool_failure_degrades (beh : ToolBeh) (n : String) (args : List (String × ArgVal))
    (case : CaseContext) (m : String) (s : OStep) (rest : List OStep) (responses : List String)
    (hknown : knownTools.contains n = true)
    (hbeh : beh n args case = .raises m)
    (hstep : s.step_type = "CALL_TOOL")
    (hname : s.tool_name = some n)
    (hargs : s.tool_args = some args) :
    _execute_tool beh (some n) args case = .err "TOOL_ERROR" m
    ∧ _update_case_from_tool_result case (some n) (.err "TOOL_ERROR" m) = case
    ∧ execSteps beh (s :: rest) case responses = execSteps beh rest case responses := by
  have hmem : n ∈ knownTools := by simpa using hknown
  have h1 : _execute_tool beh (some n) args case = .err "TOOL_ERROR" m := by
    unfold _execute_tool
    simp [hmem, hbeh]
  refine ⟨h1, rfl, ?_⟩
  simp only [execSteps, hstep, hname, hargs]
  simp [h1, _update_case_from_tool_result]

/-- A collaborator oracle that always raises. -/
def behAlwaysRaises : ToolBeh := fun _ _ _ => .raises "boom"

/-- A concrete failing territory-check step. -/
def failingStep : OStep :=
  { step_type := "CALL_TOOL", tool_name := some "check_territory", tool_args := some [] }

/-- Witness for C5 at a concrete raising tool call. -/
theorem C5_tool_failure_degrades_witness :
    _execute_tool behAlwaysRaises (some "check_territory") [] {} = .err "TOOL_ERROR" "boom"
    ∧ _update_case_from_tool_result {} (some "check_territory") (.err "TOOL_ERROR" "boom") = {}
    ∧ execSteps behAlwaysRaises [failingStep] {} [] = execSteps behAlwaysRaises [] {} [] :=
  C5_tool_failure_degrades behAlwaysRaises "check_territory" [] {} "boom" failingStep [] []
    (by decide) rfl rfl rfl rfl

/-- C7 (amended): plan-contract violations make `_validate_plan` raise a
`PlanValidationError` (an invalid step type always yields an error), an
error distinct from user-facing tool-error results; however the error is
caught inside `_execute_workflow` and converted into a user-facing
response, so the workflow never lets an exception — neither a validation
error nor a collaborator failure — propagate to the top-level handler of
`process_request`. (The original claim that the error propagates to the
top-level handler is false: see the counterexample.) -/
theorem C7_validation_raised_but_caught : ∀ (beh : ToolBeh) (plan : List OStep) (case : CaseContext),
    (∃ r, _execute_workflow_on_plan beh plan case = .ok r)
    ∧ (∀ e, _validate_plan plan = .error e →
        _execute_workflow_on_plan beh plan case
          = .ok ({ response := "I need to verify some information. " ++ e,
                   action := none, action_data := .noneD }, case))
    ∧ (∀ s, s ∈ plan → STEP_TYPES.contains s.step_type = false →
        ∃ e, _validate_plan plan = .error e) := by
  intro beh plan case
  refine ⟨?_, ?_, ?_⟩
  · unfold _execute_workflow_on_plan
    cases hv : _validate_plan plan <;> simp
  · intro e he
    unfold _execute_workflow_on_plan
    rw [he]
  · intro s hmem hbad
    induction plan with
    | nil => cases hmem
    | cons a rest ih =>
      rcases List.mem_cons.mp hmem with rfl | hmem2
      · have hnot : s.step_type ∉ STEP_TYPES := by simpa using hbad
        exact ⟨"Invalid step type: " ++ s.step_type, by simp [_validate_plan, hnot]⟩
      · simp only [_validate_plan]
        split
        · exact ⟨_, rfl⟩
        · split
          · exact ⟨_, rfl⟩
          · exact ih hmem2

/-- A concrete plan with an invalid step type. -/
def bogusPlan : List OStep := [{ step_type := "BOGUS" }]

/-- Witness for C7: on the concrete invalid plan the validator raises and
the workflow still returns normally. -/
theorem C7_validation_raised_but_caught_witness :
    (∃ r, _execute_workflow_on_plan behAlwaysRaises bogusPlan {} = .ok r)
    ∧ (∃ e, _validate_plan bogusPlan = .error e) :=
  ⟨(C7_validation_raised_but_caught behAlwaysRaises bogusPlan {}).1,
   (C7_validation_raised_but_caught behAlwaysRaises bogusPlan {}).2.2
     { step_type := "BOGUS" } (by simp [bogusPlan]) (by decide)⟩

/-- C6 counterexample: the claim quantifies over every non-null
idempotency key, but the duplicate check of all three actions is gated on
Python truthiness (`if idempotency_key:`), so the non-null empty-string
key is silently ignored: calling each action twice with the key set to
the empty string returns two distinct fresh identifiers, the second
result is not annotated as a duplicate, and the backing store ends up
with two entries. -/
theorem C6_counterexample_empty_string_key :
    ((route_to_queue "WarrantySalt" {} "normal" (some "") "CASE-0" "t0" []).1.case_id = "CASE-0"
    ∧ (route_to_queue "WarrantySalt" {} "normal" (some "") "CASE-A" "t1"
        (route_to_queue "WarrantySalt" {} "normal" (some "") "CASE-0" "t0" []).2).1.case_id = "CASE-A"
    ∧ ((route_to_queue "WarrantySalt" {} "normal" (some "") "CASE-A" "t1"
        (route_to_queue "WarrantySalt" {} "normal" (some "") "CASE-0" "t0" []).2).1.case_id
        == (route_to_queue "WarrantySalt" {} "normal" (some "") "CASE-0" "t0" []).1.case_id) = false
    ∧ (route_to_queue "WarrantySalt" {} "normal" (some "") "CASE-A" "t1"
        (route_to_queue "WarrantySalt" {} "normal" (some "") "CASE-0" "t0" []).2).1.duplicate = false
    ∧ (route_to_queue "WarrantySalt" {} "normal" (some "") "CASE-A" "t1"
        (route_to_queue "WarrantySalt" {} "normal" (some "") "CASE-0" "t0" []).2).2.length = 2)
    ∧ ((generate_paypal_link 220 [] "USD" (some "") "PAY-0" "t0" []).1.payment_id = "PAY-0"
    ∧ (generate_paypal_link 220 [] "USD" (some "") "PAY-A" "t1"
        (generate_paypal_link 220 [] "USD" (some "") "PAY-0" "t0" []).2).1.payment_id = "PAY-A"
    ∧ ((generate_paypal_link 220 [] "USD" (some "") "PAY-A" "t1"
        (generate_paypal_link 220 [] "USD" (some "") "PAY-0" "t0" []).2).1.payment_id
        == (generate_paypal_link 220 [] "USD" (some "") "PAY-0" "t0" []).1.payment_id) = false
    ∧ (generate_paypal_link 220 [] "USD" (some "") "PAY-A" "t1"
        (generate_paypal_link 220 [] "USD" (some "") "PAY-0" "t0" []).2).1.duplicate = false
    ∧ (generate_paypal_link 220 [] "USD" (some "") "PAY-A" "t1"
        (generate_paypal_link 220 [] "USD" (some "") "PAY-0" "t0" []).2).2.length = 2)
    ∧ ((log_decline_reason "too costly" [] (some "") "LOG-0" "t0" []).1.log_id = "LOG-0"
    ∧ (log_decline_reason "too costly" [] (some "") "LOG-A" "t1"
        (log_decline_reason "too costly" [] (some "") "LOG-0" "t0" []).2).1.log_id = "LOG-A"
    ∧ ((log_decline_reason "too costly" [] (some "") "LOG-A" "t1"
        (log_decline_reason "too costly" [] (some "") "LOG-0" "t0" []).2).1.log_id
        == (log_decline_reason "too costly" [] (some "") "LOG-0" "t0" []).1.log_id) = false
    ∧ (log_decline_reason "too costly" [] (some "") "LOG-A" "t1"
        (log_decline_reason "too costly" [] (some "") "LOG-0" "t0" []).2).1.duplicate = false
    ∧ (log_decline_reason "too costly" [] (some "") "LOG-A" "t1"
        (log_decline_reason "too costly" [] (some "") "LOG-0" "t0" []).2).2.length = 2) := by
  exact ⟨⟨rfl, rfl, rfl, rfl, rfl⟩, ⟨rfl, rfl, rfl, rfl, rfl⟩, ⟨rfl, rfl, rfl, rfl, rfl⟩⟩

/-- C6 (amended): for each of `route_to_queue`, `generate_paypal_link` and
`log_decline_reason`, a second call with the same truthy (non-empty)
idempotency key returns the same identifier as the first call, is
annotated `duplicate=true`, and leaves the backing store exactly as the
first call left it (no second entry is appended), regardless of the fresh
identifiers and timestamps drawn by either call and of the prior contents
of the store. (The original claim over every non-null key is false for
the non-null empty-string key, which the truthiness guard
`if idempotency_key:` skips: see the counterexample.) -/
theorem C6_idempotency_keys (k : String) (hk : (k == "") = false)
    (q pr : String) (cc : CaseContext) (cid1 cid2 now1 now2 : String) (qs : List QueueEntry)
    (amt : ℚ) (md : List (String × ArgVal)) (cur : String) (pay1 pay2 pnow1 pnow2 : String)
    (ls : List LinkEntry)
    (reason : String) (dctx : List (String × ArgVal)) (log1 log2 lnow1 lnow2 : String)
    (ds : List DeclineEntry) :
    ((route_to_queue q cc pr (some k) cid2 now2
        (route_to_queue q cc pr (some k) cid1 now1 qs).2).1.case_id
      = (route_to_queue q cc pr (some k) cid1 now1 qs).1.case_id
    ∧ (route_to_queue q cc pr (some k) cid2 now2
        (route_to_queue q cc pr (some k) cid1 now1 qs).2).1.duplicate = true
    ∧ (route_to_queue q cc pr (some k) cid2 now2
        (route_to_queue q cc pr (some k) cid1 now1 qs).2).2
      = (route_to_queue q cc pr (some k) cid1 now1 qs).2)
    ∧ ((generate_paypal_link amt md cur (some k) pay2 pnow2
        (generate_paypal_link amt md cur (some k) pay1 pnow1 ls).2).1.payment_id
      = (generate_paypal_link amt md cur (some k) pay1 pnow1 ls).1.payment_id
    ∧ (generate_paypal_link amt md cur (some k) pay2 pnow2
        (generate_paypal_link amt md cur (some k) pay1 pnow1 ls).2).1.duplicate = true
    ∧ (generate_paypal_link amt md cur (some k) pay2 pnow2
        (generate_paypal_link amt md cur (some k) pay1 pnow1 ls).2).2
      = (generate_paypal_link amt md cur (some k) pay1 pnow1 ls).2)
    ∧ ((log_decline_reason reason dctx (some k) log2 lnow2
        (log_decline_reason reason dctx (some k) log1 lnow1 ds).2).1.log_id
      = (log_decline_reason reason dctx (some k) log1 lnow1 ds).1.log_id
    ∧ (log_decline_reason reason dctx (some k) log2 lnow2
        (log_decline_reason reason dctx (some k) log1 lnow1 ds).2).1.duplicate = true
    ∧ (log_decline_reason reason dctx (some k) log2 lnow2
        (log_decline_reason reason dctx (some k) log1 lnow1 ds).2).2
      = (log_decline_reason reason dctx (some k) log1 lnow1 ds).2) := by
  have hk2 : truthyS (some k) = true := by simp [truthyS, hk]
  refine ⟨?_, ?_, ?_⟩
  · cases hfind : qs.find? (fun c => c.idempotency_key == some k) with
    | some c =>
      unfold route_to_queue
      simp [hk2, hfind]
    | none =>
      unfold route_to_queue
      simp [hk2, hfind, List.find?_append, List.find?]
  · cases hfind : ls.find? (fun l => l.idempotency_key == some k) with
    | some l =>
      unfold generate_paypal_link
      simp [hk2, hfind]
    | none =>
      unfold generate_paypal_link
      simp [hk2, hfind, List.find?_append, List.find?]
  · cases hfind : ds.find? (fun l => l.idempotency_key == some k) with
    | some l =>
      unfold log_decline_reason
      simp [hk2, hfind]
    | none =>
      unfold log_decline_reason
      simp [hk2, hfind, List.find?_append, List.find?]

/-- Witness for C6 at concrete arguments with empty initial stores. -/
theorem C6_idempotency_keys_witness :
    ((route_to_queue "WarrantySalt" {} "normal" (some "key-1") "CASE-A" "t1"
        (route_to_queue "WarrantySalt" {} "normal" (some "key-1") "CASE-0" "t0" []).2).1.case_id
      = (route_to_queue "WarrantySalt" {} "normal" (some "key-1") "CASE-0" "t0" []).1.case_id
    ∧ (route_to_queue "WarrantySalt" {} "normal" (some "key-1") "CASE-A" "t1"
        (route_to_queue "WarrantySalt" {} "normal" (some "key-1") "CASE-0" "t0" []).2).1.duplicate = true
    ∧ (route_to_queue "WarrantySalt" {} "normal" (some "key-1") "CASE-A" "t1"
        (route_to_queue "WarrantySalt" {} "normal" (some "key-1") "CASE-0" "t0" []).2).2
      = (route_to_queue "WarrantySalt" {} "normal" (some "key-1") "CASE-0" "t0" []).2)
    ∧ ((generate_paypal_link 220 [] "USD" (some "key-1") "PAY-A" "t1"
        (generate_paypal_link 220 [] "USD" (some "key-1") "PAY-0" "t0" []).2).1.payment_id
      = (generate_paypal_link 220 [] "USD" (some "key-1") "PAY-0" "t0" []).1.payment_id
    ∧ (generate_paypal_link 220 [] "USD" (some "key-1") "PAY-A" "t1"
        (generate_paypal_link 220 [] "USD" (some "key-1") "PAY-0" "t0" []).2).1.duplicate = true
    ∧ (generate_paypal_link 220 [] "USD" (some "key-1") "PAY-A" "t1"
        (generate_paypal_link 220 [] "USD" (some "key-1") "PAY-0" "t0" []).2).2
      = (generate_paypal_link 220 [] "USD" (some "key-1") "PAY-0" "t0" []).2)
    ∧ ((log_decline_reason "too costly" [] (some "key-1") "LOG-A" "t1"
        (log_decline_reason "too costly" [] (some "key-1") "LOG-0" "t0" []).2).1.log_id
      = (log_decline_reason "too costly" [] (some "key-1") "LOG-0" "t0" []).1.log_id
    ∧ (log_decline_reason "too costly" [] (some "key-1") "LOG-A" "t1"
        (log_decline_reason "too costly" [] (some "key-1") "LOG-0" "t0" []).2).1.duplicate = true
    ∧ (log_decline_reason "too costly" [] (some "key-1") "LOG-A" "t1"
        (log_decline_reason "too costly" [] (some "key-1") "LOG-0" "t0" []).2).2
      = (log_decline_reason "too costly" [] (some "key-1") "LOG-0" "t0" []).2) :=
  C6_idempotency_keys "key-1" (by decide) "WarrantySalt" "normal" {} "CASE-0" "CASE-A" "t0" "t1" []
    220 [] "USD" "PAY-0" "PAY-A" "t0" "t1" [] "too costly" [] "LOG-0" "LOG-A" "t0" "t1" []
